import Mathlib

/-!
Verification of the qairoz-backend repository.

Part 1: the email OTP service (`OTPService` in the frontend TS module):
a map from email addresses to OTP records, with generation, verification,
expiry cleanup and attempt limiting.  The JS `Map<string, OTPData>` is
embedded as a function `String → Option OTPData` (a JS map holds at most
one entry per key); `Date.now()` is an explicit `now : Nat` parameter
(milliseconds), and `Math.random()` an explicit rational `r ∈ [0,1)`.
-/

/-- `OTPData` record stored in the map (`code`, `email`, `expiresAt`, `attempts`). -/
structure OTPData where
  code : String
  email : String
  expiresAt : Nat
  attempts : Nat
  deriving Repr, DecidableEq

/-- The OTP store: JS `Map<string, OTPData>` as a partial function. -/
def OTPMap : Type := String → Option OTPData

/-- The empty map (`new Map()`). -/
def OTPMap.empty : OTPMap := fun _ => none

/-- `Map.get` -/
def OTPMap.get (m : OTPMap) (k : String) : Option OTPData := m k

/-- `Map.set` -/
def OTPMap.set (m : OTPMap) (k : String) (v : OTPData) : OTPMap :=
  fun x => if x = k then some v else m x

/-- `Map.delete` -/
def OTPMap.del (m : OTPMap) (k : String) : OTPMap :=
  fun x => if x = k then none else m x

/-- `Map.has` -/
def OTPMap.has (m : OTPMap) (k : String) : Bool := (m k).isSome

/-- `OTP_EXPIRY_TIME = 5 * 60 * 1000` (5 minutes in ms). -/
def OTP_EXPIRY_TIME : Nat := 5 * 60 * 1000

/-- `MAX_ATTEMPTS = 3`. -/
def MAX_ATTEMPTS : Nat := 3

/-- `generateOTP()`: `Math.floor(100000 + Math.random() * 900000)`, where the
random input is `r`.  (JS then takes `.toString()`; we keep the integer whose
decimal string that is.) -/
def generateOTP (r : ℚ) : ℤ := ⌊(100000 : ℚ) + r * 900000⌋

/-- `cleanupExpiredOTPs()`: delete every entry with `now > otp.expiresAt`. -/
def cleanupExpiredOTPs (m : OTPMap) (now : Nat) : OTPMap :=
  fun k => match m k with
    | some otp => if now > otp.expiresAt then none else some otp
    | none => none

/-- `clearOTP(email)`: delete the entry for `email` (the `has` guard only
affects logging). -/
def clearOTP (m : OTPMap) (email : String) : OTPMap := m.del email

/-- Result of `sendEmailOTP` / `verifyEmailOTP`: `{ success, message }`
together with the map after the call. -/
structure OTPResult where
  state : OTPMap
  success : Bool
  message : String

/-- `sendEmailOTP(email)` on the non-throwing path: cleanup, clear, generate
(`code` is the generated 6-digit string), store with expiry `now +
OTP_EXPIRY_TIME` and `attempts = 0`, attempt delivery (`emailSent` is what
`emailService.sendOTP` returned) and report success regardless. -/
def sendEmailOTP (m : OTPMap) (email : String) (now : Nat) (code : String)
    (emailSent : Bool) : OTPResult :=
  let m1 := cleanupExpiredOTPs m now
  let m2 := clearOTP m1 email
  let m3 := m2.set email { code := code, email := email,
                           expiresAt := now + OTP_EXPIRY_TIME, attempts := 0 }
  -- `if (!emailSent)` only logs; the OTP is kept and success returned either way
  { state := m3, success := true, message := "OTP generated successfully" }

/-- `verifyEmailOTP(email, inputOTP)`. -/
def verifyEmailOTP (m : OTPMap) (email inputOTP : String) (now : Nat) : OTPResult :=
  let m1 := cleanupExpiredOTPs m now
  match m1.get email with
  | none =>
      { state := m1, success := false,
        message := "OTP not found or expired. Please request a new one." }
  | some otpData =>
      if now > otpData.expiresAt then
        { state := m1.del email, success := false,
          message := "OTP has expired. Please request a new one." }
      else if otpData.attempts ≥ MAX_ATTEMPTS then
        { state := m1.del email, success := false,
          message := "Too many attempts. Please request a new OTP." }
      else
        -- otpData.attempts++ mutates the stored record
        let bumped : OTPData := { otpData with attempts := otpData.attempts + 1 }
        if otpData.code = inputOTP then
          { state := (m1.set email bumped).del email, success := true,
            message := "Email verified successfully!" }
        else
          let remainingAttempts := MAX_ATTEMPTS - bumped.attempts
          { state := m1.set email bumped, success := false,
            message := s!"Invalid OTP. {remainingAttempts} attempts remaining." }

/-- `getOTPTimeRemaining(email)`: cleanup, then seconds remaining, rounded up. -/
def getOTPTimeRemaining (m : OTPMap) (email : String) (now : Nat) : OTPMap × Nat :=
  let m1 := cleanupExpiredOTPs m now
  match m1.get email with
  | none => (m1, 0)
  | some otpData => (m1, ((otpData.expiresAt - now) + 999) / 1000)

/-- `hasActiveOTP(email)`: cleanup, then membership. -/
def hasActiveOTP (m : OTPMap) (email : String) (now : Nat) : OTPMap × Bool :=
  let m1 := cleanupExpiredOTPs m now
  (m1, m1.has email)

example :
    (verifyEmailOTP (OTPMap.empty.set "a@b" ⟨"123456", "a@b", 1000, 0⟩)
      "a@b" "123456" 500).success = true := by decide

example :
    (verifyEmailOTP (OTPMap.empty.set "a@b" ⟨"123456", "a@b", 1000, 0⟩)
      "a@b" "111111" 500).message = "Invalid OTP. 2 attempts remaining." := by decide

example :
    (verifyEmailOTP (OTPMap.empty.set "a@b" ⟨"123456", "a@b", 1000, 3⟩)
      "a@b" "123456" 500).message = "Too many attempts. Please request a new OTP." := by
  decide

example : generateOTP (1/2) = 550000 := by norm_num [generateOTP]

/-! ### Helper lemmas about the OTP map -/

lemma OTPMap.get_def (m : OTPMap) (k : String) : m.get k = m k := rfl

lemma cleanupExpiredOTPs_get_some (m : OTPMap) (now : Nat) (k : String) (d : OTPData) :
    cleanupExpiredOTPs m now k = some d ↔ m k = some d ∧ now ≤ d.expiresAt := by
  unfold cleanupExpiredOTPs
  cases h : m k with
  | none => simp
  | some otp =>
    by_cases hn : now > otp.expiresAt
    · simp only [hn, if_true]
      constructor
      · intro hc; exact absurd hc (by simp)
      · rintro ⟨hc, hle⟩
        cases hc
        omega
    · simp only [hn, if_false]
      constructor
      · rintro hc
        cases hc
        exact ⟨rfl, by omega⟩
      · rintro ⟨hc, _⟩
        cases hc
        rfl

lemma cleanupExpiredOTPs_get_none (m : OTPMap) (now : Nat) (k : String) :
    cleanupExpiredOTPs m now k = none ↔ (∀ d, m k = some d → now > d.expiresAt) := by
  unfold cleanupExpiredOTPs
  cases h : m k with
  | none => simp
  | some otp =>
    by_cases hn : now > otp.expiresAt <;> simp [hn]

lemma verifyEmailOTP_not_found (m : OTPMap) (e s : String) (now : Nat)
    (h : cleanupExpiredOTPs m now e = none) :
    verifyEmailOTP m e s now =
      { state := cleanupExpiredOTPs m now, success := false,
        message := "OTP not found or expired. Please request a new one." } := by
  simp only [verifyEmailOTP, OTPMap.get]
  rw [h]

lemma verifyEmailOTP_of_get_none (m : OTPMap) (e s : String) (now : Nat)
    (h : m e = none) :
    verifyEmailOTP m e s now =
      { state := cleanupExpiredOTPs m now, success := false,
        message := "OTP not found or expired. Please request a new one." } := by
  apply verifyEmailOTP_not_found
  rw [cleanupExpiredOTPs_get_none]
  intro d hd
  rw [h] at hd
  cases hd

lemma verifyEmailOTP_too_many (m : OTPMap) (e s : String) (now : Nat) (d : OTPData)
    (h : cleanupExpiredOTPs m now e = some d) (hatt : MAX_ATTEMPTS ≤ d.attempts) :
    verifyEmailOTP m e s now =
      { state := (cleanupExpiredOTPs m now).del e, success := false,
        message := "Too many attempts. Please request a new OTP." } := by
  have hle : now ≤ d.expiresAt := ((cleanupExpiredOTPs_get_some m now e d).mp h).2
  simp only [verifyEmailOTP, OTPMap.get]
  rw [h]
  simp only [ge_iff_le]
  rw [if_neg (by omega), if_pos hatt]

lemma verifyEmailOTP_good_code (m : OTPMap) (e s : String) (now : Nat) (d : OTPData)
    (h : cleanupExpiredOTPs m now e = some d) (hatt : d.attempts < MAX_ATTEMPTS)
    (hcode : d.code = s) :
    verifyEmailOTP m e s now =
      { state := ((cleanupExpiredOTPs m now).set e
          { d with attempts := d.attempts + 1 }).del e,
        success := true, message := "Email verified successfully!" } := by
  have hle : now ≤ d.expiresAt := ((cleanupExpiredOTPs_get_some m now e d).mp h).2
  simp only [verifyEmailOTP, OTPMap.get]
  rw [h]
  simp only [ge_iff_le]
  rw [if_neg (by omega), if_neg (by omega), if_pos hcode]

lemma verifyEmailOTP_bad_code (m : OTPMap) (e s : String) (now : Nat) (d : OTPData)
    (h : cleanupExpiredOTPs m now e = some d) (hatt : d.attempts < MAX_ATTEMPTS)
    (hcode : ¬ d.code = s) :
    verifyEmailOTP m e s now =
      { state := (cleanupExpiredOTPs m now).set e { d with attempts := d.attempts + 1 },
        success := false,
        message := s!"Invalid OTP. {MAX_ATTEMPTS - (d.attempts + 1)} attempts remaining." } := by
  have hle : now ≤ d.expiresAt := ((cleanupExpiredOTPs_get_some m now e d).mp h).2
  simp only [verifyEmailOTP, OTPMap.get]
  rw [h]
  simp only [ge_iff_le]
  rw [if_neg (by omega), if_neg (by omega), if_neg hcode]

/-- **C1.** `verifyEmailOTP(e, s)` succeeds iff the map holds an unexpired
entry for `e` whose attempt counter before the call is below `MAX_ATTEMPTS`
and whose stored code equals `s`; every failing call carries one of the
explanatory messages of the source. -/
theorem verifyEmailOTP_success_iff (m : OTPMap) (e s : String) (now : Nat) :
    ((verifyEmailOTP m e s now).success = true ↔
      ∃ d : OTPData, m.get e = some d ∧ now ≤ d.expiresAt ∧
        d.attempts < MAX_ATTEMPTS ∧ d.code = s) ∧
    ((verifyEmailOTP m e s now).success = false →
      (verifyEmailOTP m e s now).message =
          "OTP not found or expired. Please request a new one." ∨
      (verifyEmailOTP m e s now).message =
          "OTP has expired. Please request a new one." ∨
      (verifyEmailOTP m e s now).message =
          "Too many attempts. Please request a new OTP." ∨
      ∃ k : Nat, (verifyEmailOTP m e s now).message =
          s!"Invalid OTP. {k} attempts remaining.") := by
  rcases h : cleanupExpiredOTPs m now e with _ | d
  · rw [verifyEmailOTP_not_found m e s now h]
    refine ⟨?_, fun _ => Or.inl rfl⟩
    simp only [Bool.false_eq_true, false_iff]
    rintro ⟨d, hd, hle, -, -⟩
    have := (cleanupExpiredOTPs_get_none m now e).mp h d hd
    omega
  · have hm := (cleanupExpiredOTPs_get_some m now e d).mp h
    by_cases hatt : MAX_ATTEMPTS ≤ d.attempts
    · rw [verifyEmailOTP_too_many m e s now d h hatt]
      refine ⟨?_, fun _ => Or.inr (Or.inr (Or.inl rfl))⟩
      simp only [Bool.false_eq_true, false_iff]
      rintro ⟨d', hd', -, hlt', -⟩
      rw [OTPMap.get_def, hm.1] at hd'
      cases hd'
      omega
    · by_cases hcode : d.code = s
      · rw [verifyEmailOTP_good_code m e s now d h (by omega) hcode]
        refine ⟨iff_of_true rfl ⟨d, hm.1, hm.2, by omega, hcode⟩, ?_⟩
        intro hc
        simp at hc
      · rw [verifyEmailOTP_bad_code m e s now d h (by omega) hcode]
        refine ⟨?_, fun _ => Or.inr (Or.inr (Or.inr ⟨MAX_ATTEMPTS - (d.attempts + 1), rfl⟩))⟩
        simp only [Bool.false_eq_true, false_iff]
        rintro ⟨d', hd', -, -, hcd'⟩
        rw [OTPMap.get_def, hm.1] at hd'
        cases hd'
        exact hcode hcd'

/-- Witness for C1 at a concrete successful input. -/
theorem verifyEmailOTP_success_iff_witness :
    (verifyEmailOTP (OTPMap.empty.set "a@b" ⟨"123456", "a@b", 1000, 0⟩)
        "a@b" "123456" 500).success = true ↔
      ∃ d : OTPData,
        (OTPMap.empty.set "a@b" ⟨"123456", "a@b", 1000, 0⟩).get "a@b" = some d ∧
        500 ≤ d.expiresAt ∧ d.attempts < MAX_ATTEMPTS ∧ d.code = "123456" :=
  (verifyEmailOTP_success_iff (OTPMap.empty.set "a@b" ⟨"123456", "a@b", 1000, 0⟩)
    "a@b" "123456" 500).1

/-- **C2.** Once the stored attempt counter has reached `MAX_ATTEMPTS`, a
`verifyEmailOTP` call for that email fails with 'Too many attempts' and
evicts the entry whatever the input string is (the code is never compared),
and every later `verifyEmailOTP` call on the resulting map fails with
'OTP not found or expired'. -/
theorem verifyEmailOTP_attempt_limit (m : OTPMap) (e s : String) (now : Nat) (d : OTPData)
    (hget : m.get e = some d) (hexp : now ≤ d.expiresAt)
    (hatt : MAX_ATTEMPTS ≤ d.attempts) :
    (verifyEmailOTP m e s now).success = false ∧
    (verifyEmailOTP m e s now).message = "Too many attempts. Please request a new OTP." ∧
    (verifyEmailOTP m e s now).state.get e = none ∧
    ∀ s' now',
      (verifyEmailOTP (verifyEmailOTP m e s now).state e s' now').success = false ∧
      (verifyEmailOTP (verifyEmailOTP m e s now).state e s' now').message =
        "OTP not found or expired. Please request a new one." := by
  have h : cleanupExpiredOTPs m now e = some d :=
    (cleanupExpiredOTPs_get_some m now e d).mpr ⟨hget, hexp⟩
  rw [verifyEmailOTP_too_many m e s now d h hatt]
  have hdel : ((cleanupExpiredOTPs m now).del e) e = none := by
    simp [OTPMap.del]
  refine ⟨rfl, rfl, hdel, fun s' now' => ?_⟩
  rw [verifyEmailOTP_of_get_none _ _ _ _ hdel]
  exact ⟨rfl, rfl⟩

/-- Witness for C2: a stored OTP with 3 attempts is rejected and evicted even
when the correct code is supplied. -/
theorem verifyEmailOTP_attempt_limit_witness :
    (OTPMap.empty.set "a@b" ⟨"123456", "a@b", 1000, 3⟩).get "a@b" =
        some ⟨"123456", "a@b", 1000, 3⟩ ∧
    (verifyEmailOTP (OTPMap.empty.set "a@b" ⟨"123456", "a@b", 1000, 3⟩)
        "a@b" "123456" 500).success = false ∧
    (verifyEmailOTP (OTPMap.empty.set "a@b" ⟨"123456", "a@b", 1000, 3⟩)
        "a@b" "123456" 500).message = "Too many attempts. Please request a new OTP." := by
  have h := verifyEmailOTP_attempt_limit
    (OTPMap.empty.set "a@b" ⟨"123456", "a@b", 1000, 3⟩) "a@b" "123456" 500
    ⟨"123456", "a@b", 1000, 3⟩ (by decide) (by decide) (by decide)
  exact ⟨by decide, h.1, h.2.1⟩

lemma verifyEmailOTP_state_get_none (m : OTPMap) (e' s : String) (now : Nat) (k : String)
    (h : cleanupExpiredOTPs m now k = none) :
    (verifyEmailOTP m e' s now).state.get k = none := by
  rcases h2 : cleanupExpiredOTPs m now e' with _ | d
  · rw [verifyEmailOTP_not_found m e' s now h2]
    exact h
  · have hne : k ≠ e' := by
      intro hk
      rw [hk, h2] at h
      cases h
    by_cases hatt : MAX_ATTEMPTS ≤ d.attempts
    · rw [verifyEmailOTP_too_many m e' s now d h2 hatt]
      simp [OTPMap.get, OTPMap.del, hne, h]
    · by_cases hcode : d.code = s
      · rw [verifyEmailOTP_good_code m e' s now d h2 (by omega) hcode]
        simp [OTPMap.get, OTPMap.del, OTPMap.set, hne, h]
      · rw [verifyEmailOTP_bad_code m e' s now d h2 (by omega) hcode]
        simp [OTPMap.get, OTPMap.set, hne, h]

lemma sendEmailOTP_state_get (m : OTPMap) (e' : String) (now : Nat) (code : String)
    (sent : Bool) (k : String) :
    (sendEmailOTP m e' now code sent).state.get k =
      if k = e' then some { code := code, email := e',
                            expiresAt := now + OTP_EXPIRY_TIME, attempts := 0 }
      else cleanupExpiredOTPs m now k := by
  by_cases h : k = e' <;>
    simp [sendEmailOTP, clearOTP, OTPMap.set, OTPMap.del, OTPMap.get, h]

lemma getOTPTimeRemaining_fst (m : OTPMap) (e' : String) (now : Nat) :
    (getOTPTimeRemaining m e' now).1 = cleanupExpiredOTPs m now := by
  unfold getOTPTimeRemaining
  rcases h : OTPMap.get (cleanupExpiredOTPs m now) e' with _ | d <;> simp [h]

lemma hasActiveOTP_fst (m : OTPMap) (e' : String) (now : Nat) :
    (hasActiveOTP m e' now).1 = cleanupExpiredOTPs m now := rfl

/-- **C3.** An entry whose expiry is strictly in the past is evicted by each
of `verifyEmailOTP`, `sendEmailOTP`, `getOTPTimeRemaining` and
`hasActiveOTP` (whatever email they are called on), and `verifyEmailOTP`
for that email reports 'OTP not found or expired' instead of comparing
codes. -/
theorem expiredOTP_evicted (m : OTPMap) (e : String) (now : Nat) (d : OTPData)
    (hget : m.get e = some d) (hexp : d.expiresAt < now) :
    (∀ e' s, (verifyEmailOTP m e' s now).state.get e = none) ∧
    (∀ s, (verifyEmailOTP m e s now).success = false ∧
          (verifyEmailOTP m e s now).message =
            "OTP not found or expired. Please request a new one.") ∧
    (∀ e' code sent, (sendEmailOTP m e' now code sent).state.get e ≠ some d) ∧
    (∀ e', ((getOTPTimeRemaining m e' now).1).get e = none) ∧
    (∀ e', ((hasActiveOTP m e' now).1).get e = none) := by
  have hcl : cleanupExpiredOTPs m now e = none := by
    rw [cleanupExpiredOTPs_get_none]
    intro d' hd'
    rw [OTPMap.get_def] at hget
    rw [hget] at hd'
    cases hd'
    omega
  refine ⟨fun e' s => verifyEmailOTP_state_get_none m e' s now e hcl,
          fun s => ?_, fun e' code sent => ?_, fun e' => ?_, fun e' => ?_⟩
  · rw [verifyEmailOTP_not_found m e s now hcl]
    exact ⟨rfl, rfl⟩
  · rw [sendEmailOTP_state_get]
    by_cases h : e = e'
    · simp only [h, if_pos rfl]
      intro hc
      have : now + OTP_EXPIRY_TIME = d.expiresAt := congrArg OTPData.expiresAt (Option.some.inj hc)
      have : 0 < OTP_EXPIRY_TIME := by norm_num [OTP_EXPIRY_TIME]
      omega
    · rw [if_neg h, hcl]
      intro hc
      cases hc
  · rw [getOTPTimeRemaining_fst]
    exact hcl
  · rw [hasActiveOTP_fst]
    exact hcl

/-- Witness for C3 at a concrete expired entry. -/
theorem expiredOTP_evicted_witness :
    (OTPMap.empty.set "a@b" ⟨"123456", "a@b", 1000, 0⟩).get "a@b" =
        some ⟨"123456", "a@b", 1000, 0⟩ ∧
    (verifyEmailOTP (OTPMap.empty.set "a@b" ⟨"123456", "a@b", 1000, 0⟩)
        "a@b" "123456" 2000).success = false ∧
    (verifyEmailOTP (OTPMap.empty.set "a@b" ⟨"123456", "a@b", 1000, 0⟩)
        "a@b" "123456" 2000).message =
      "OTP not found or expired. Please request a new one." := by
  have h := expiredOTP_evicted (OTPMap.empty.set "a@b" ⟨"123456", "a@b", 1000, 0⟩)
    "a@b" 2000 ⟨"123456", "a@b", 1000, 0⟩ (by decide) (by decide)
  exact ⟨by decide, (h.2.1 "123456").1, (h.2.1 "123456").2⟩

/-- **C4.** Every `sendEmailOTP(e)` call (on the non-throwing path) reports
success — also when delivery (`sent`) failed — and afterwards the map's
entry for `e` is exactly the freshly stored record: the given code, expiry
`now + 5 minutes`, attempt counter 0; any previously stored OTP for `e` is
replaced and no other key is touched beyond expiry cleanup. -/
theorem sendEmailOTP_spec (m : OTPMap) (e : String) (now : Nat) (code : String)
    (sent : Bool) :
    (sendEmailOTP m e now code sent).success = true ∧
    (sendEmailOTP m e now code sent).message = "OTP generated successfully" ∧
    (sendEmailOTP m e now code sent).state.get e =
      some { code := code, email := e, expiresAt := now + 5 * 60 * 1000, attempts := 0 } ∧
    (sendEmailOTP m e now code false).success = true ∧
    ∀ k, k ≠ e → (sendEmailOTP m e now code sent).state.get k =
      cleanupExpiredOTPs m now k := by
  refine ⟨rfl, rfl, ?_, rfl, fun k hk => ?_⟩
  · rw [sendEmailOTP_state_get, if_pos rfl]
    norm_num [OTP_EXPIRY_TIME]
  · rw [sendEmailOTP_state_get, if_neg hk]

/-- Witness for C4 with a previously stored OTP, at `sent = false`. -/
theorem sendEmailOTP_spec_witness :
    (sendEmailOTP (OTPMap.empty.set "a@b" ⟨"999999", "a@b", 70, 2⟩)
        "a@b" 100 "123456" false).success = true ∧
    (sendEmailOTP (OTPMap.empty.set "a@b" ⟨"999999", "a@b", 70, 2⟩)
        "a@b" 100 "123456" false).state.get "a@b" =
      some { code := "123456", email := "a@b",
             expiresAt := 100 + 5 * 60 * 1000, attempts := 0 } ∧
    (sendEmailOTP (OTPMap.empty.set "a@b" ⟨"999999", "a@b", 70, 2⟩)
        "a@b" 100 "123456" false).state.get "x@y" =
      cleanupExpiredOTPs (OTPMap.empty.set "a@b" ⟨"999999", "a@b", 70, 2⟩) 100 "x@y" := by
  have h := sendEmailOTP_spec (OTPMap.empty.set "a@b" ⟨"999999", "a@b", 70, 2⟩)
    "a@b" 100 "123456" false
  exact ⟨h.1, h.2.2.1, h.2.2.2.2 "x@y" (by decide)⟩

/-- **C5.** For every random input `r ∈ [0, 1)`, `generateOTP` produces an
integer between 100000 and 999999 inclusive, whose decimal representation
has exactly six digits. -/
theorem generateOTP_six_digits (r : ℚ) (h0 : 0 ≤ r) (h1 : r < 1) :
    100000 ≤ generateOTP r ∧ generateOTP r ≤ 999999 ∧
    (Nat.digits 10 (generateOTP r).toNat).length = 6 := by
  have hlo : (100000 : ℤ) ≤ generateOTP r := by
    apply Int.le_floor.mpr
    push_cast
    nlinarith
  have hhi : generateOTP r < 1000000 := by
    apply Int.floor_lt.mpr
    push_cast
    nlinarith
  refine ⟨hlo, by omega, ?_⟩
  have hn1 : 100000 ≤ (generateOTP r).toNat := by omega
  have hn2 : (generateOTP r).toNat < 1000000 := by omega
  rw [Nat.digits_len 10 _ (by norm_num) (by omega)]
  have hlog : Nat.log 10 (generateOTP r).toNat = 5 := by
    apply Nat.log_eq_of_pow_le_of_lt_pow
    · calc (10 : ℕ) ^ 5 = 100000 := by norm_num
        _ ≤ _ := hn1
    · calc (generateOTP r).toNat < 1000000 := hn2
        _ = 10 ^ (5 + 1) := by norm_num
  omega

/-- Witness for C5 at `r = 1/2` (the generated value is 550000). -/
theorem generateOTP_six_digits_witness :
    (0 : ℚ) ≤ 1/2 ∧ (1/2 : ℚ) < 1 ∧
    (100000 ≤ generateOTP (1/2) ∧ generateOTP (1/2) ≤ 999999 ∧
      (Nat.digits 10 (generateOTP (1/2)).toNat).length = 6) :=
  ⟨by norm_num, by norm_num, generateOTP_six_digits (1/2) (by norm_num) (by norm_num)⟩

/-- **C6.** OTPs are single-use: a successful `verifyEmailOTP(e, s)` deletes
the entry for `e`, and an immediately repeated `verifyEmailOTP(e, s)` with
the same code (at any later time) fails with 'OTP not found or expired'. -/
theorem verifyEmailOTP_single_use (m : OTPMap) (e s : String) (now now' : Nat)
    (h : (verifyEmailOTP m e s now).success = true) :
    (verifyEmailOTP m e s now).state.get e = none ∧
    (verifyEmailOTP (verifyEmailOTP m e s now).state e s now').success = false ∧
    (verifyEmailOTP (verifyEmailOTP m e s now).state e s now').message =
      "OTP not found or expired. Please request a new one." := by
  have hdel : (verifyEmailOTP m e s now).state.get e = none := by
    rcases h2 : cleanupExpiredOTPs m now e with _ | d
    · rw [verifyEmailOTP_not_found m e s now h2] at h
      cases h
    · by_cases hatt : MAX_ATTEMPTS ≤ d.attempts
      · rw [verifyEmailOTP_too_many m e s now d h2 hatt] at h
        cases h
      · by_cases hcode : d.code = s
        · rw [verifyEmailOTP_good_code m e s now d h2 (by omega) hcode]
          simp [OTPMap.get, OTPMap.del]
        · rw [verifyEmailOTP_bad_code m e s now d h2 (by omega) hcode] at h
          cases h
  have hdel' : (verifyEmailOTP m e s now).state e = none := hdel
  refine ⟨hdel, ?_, ?_⟩ <;>
    rw [verifyEmailOTP_of_get_none ((verifyEmailOTP m e s now).state) e s now' hdel']

/-- Witness for C6: a successful verification followed by a retry with the
same code. -/
theorem verifyEmailOTP_single_use_witness :
    (verifyEmailOTP (OTPMap.empty.set "a@b" ⟨"123456", "a@b", 1000, 0⟩)
        "a@b" "123456" 500).success = true ∧
    ((verifyEmailOTP (OTPMap.empty.set "a@b" ⟨"123456", "a@b", 1000, 0⟩)
        "a@b" "123456" 500).state.get "a@b" = none ∧
     (verifyEmailOTP (verifyEmailOTP (OTPMap.empty.set "a@b" ⟨"123456", "a@b", 1000, 0⟩)
        "a@b" "123456" 500).state "a@b" "123456" 600).success = false ∧
     (verifyEmailOTP (verifyEmailOTP (OTPMap.empty.set "a@b" ⟨"123456", "a@b", 1000, 0⟩)
        "a@b" "123456" 500).state "a@b" "123456" 600).message =
       "OTP not found or expired. Please request a new one.") :=
  ⟨by decide, verifyEmailOTP_single_use
    (OTPMap.empty.set "a@b" ⟨"123456", "a@b", 1000, 0⟩) "a@b" "123456" 500 600 (by decide)⟩

/-!
Part 2: the Express backend (`src/index.js` and the Resend variant).
In-memory arrays `colleges` and `students`, the `POST /api/students`
upsert (three textual copies), `GET /api/stats` and `DELETE /api/clear`.
`new Date().toISOString()` is modelled by the call instant `now : Nat`.
-/

/-- A student object as uploaded in the request body (the fields the
handlers and the CSV export read). -/
structure RawStudent where
  name : String
  email : String
  phone : String
  rollNumber : String
  course : String
  year : String
  sport : String
  registrationDate : String
  deriving Repr, DecidableEq

/-- A stored student: the uploaded record spread together with
`collegeName`, `collegeEmail` and `uploadedAt` (which override any
like-named uploaded fields). -/
structure Student where
  base : RawStudent
  collegeName : String
  collegeEmail : String
  uploadedAt : Nat
  deriving Repr, DecidableEq

/-- A college record as stored in the `colleges` array. -/
structure College where
  name : String
  email : String
  studentCount : Nat
  lastUpdated : Nat
  registeredAt : Nat
  deriving Repr, DecidableEq

/-- The in-memory server state: `let colleges = []; let students = []`. -/
structure ServerState where
  colleges : List College
  students : List Student
  deriving Repr, DecidableEq

/-- A `POST /api/students` request body: `collegeName`, the `students`
array, and `collegeInfo?.email || ''` collapsed into one string (empty when
absent or falsy). -/
structure StudentsRequest where
  collegeName : String
  students : List RawStudent
  collegeEmail : String
  deriving Repr, DecidableEq

/-- Response of the first/Resend copy of `POST /api/students`:
`{success, message, count, collegeName}` or a 400 error. -/
inductive PostResult where
  | ok (count : Nat) (collegeName : String)
  | badRequest
  deriving Repr, DecidableEq

/-- Response of the second copy (index.js:478): `data{collegeName,
studentsUploaded, totalStudents, totalColleges}` or a 400 error. -/
inductive PostResult2 where
  | ok (collegeName : String) (studentsUploaded totalStudents totalColleges : Nat)
  | badRequest
  deriving Repr, DecidableEq

/-- Mutating the object returned by `find` / writing `colleges[idx]`:
apply `f` to the first element satisfying `p`. -/
def updateFirst {α : Type} (p : α → Bool) (f : α → α) : List α → List α
  | [] => []
  | x :: xs => if p x then f x :: xs else x :: updateFirst p f xs

/-- The students update shared by every copy: drop this college's students,
then append the uploaded ones extended with college info. -/
def replaceStudents (students : List Student) (req : StudentsRequest) (now : Nat) :
    List Student :=
  students.filter (fun s => !(s.collegeName == req.collegeName)) ++
    req.students.map (fun s =>
      { base := s, collegeName := req.collegeName,
        collegeEmail := req.collegeEmail, uploadedAt := now })

/-- `POST /api/students`, first copy (index.js:80–125): mutate the found
college's `studentCount`/`lastUpdated`, or push a new record. -/
def postStudents (st : ServerState) (req : StudentsRequest) (now : Nat) :
    ServerState × PostResult :=
  if req.collegeName = "" then (st, .badRequest)
  else
    let colleges1 :=
      if (st.colleges.find? (fun c => c.name == req.collegeName)).isSome then
        updateFirst (fun c => c.name == req.collegeName)
          (fun c => { c with studentCount := req.students.length, lastUpdated := now })
          st.colleges
      else
        st.colleges ++ [{ name := req.collegeName, email := req.collegeEmail,
                          studentCount := req.students.length,
                          lastUpdated := now, registeredAt := now }]
    ({ colleges := colleges1, students := replaceStudents st.students req now },
     .ok req.students.length req.collegeName)

/-- `POST /api/students`, second copy (index.js:478–543): overwrite the
found college record with freshly built `collegeData` (keeping only its
`registeredAt`), or push it. -/
def postStudents2 (st : ServerState) (req : StudentsRequest) (now : Nat) :
    ServerState × PostResult2 :=
  if req.collegeName = "" then (st, .badRequest)
  else
    let colleges1 :=
      if (st.colleges.find? (fun c => c.name == req.collegeName)).isSome then
        updateFirst (fun c => c.name == req.collegeName)
          (fun c => { name := req.collegeName, email := req.collegeEmail,
                      studentCount := req.students.length, lastUpdated := now,
                      registeredAt := c.registeredAt })
          st.colleges
      else
        st.colleges ++ [{ name := req.collegeName, email := req.collegeEmail,
                          studentCount := req.students.length,
                          lastUpdated := now, registeredAt := now }]
    let students1 := replaceStudents st.students req now
    ({ colleges := colleges1, students := students1 },
     .ok req.collegeName req.students.length students1.length colleges1.length)

/-- `POST /api/students`, copy in the Resend backend (part_001:93–141);
textually the same handler as the first copy. -/
def postStudentsResend (st : ServerState) (req : StudentsRequest) (now : Nat) :
    ServerState × PostResult :=
  if req.collegeName = "" then (st, .badRequest)
  else
    let colleges1 :=
      if (st.colleges.find? (fun c => c.name == req.collegeName)).isSome then
        updateFirst (fun c => c.name == req.collegeName)
          (fun c => { c with studentCount := req.students.length, lastUpdated := now })
          st.colleges
      else
        st.colleges ++ [{ name := req.collegeName, email := req.collegeEmail,
                          studentCount := req.students.length,
                          lastUpdated := now, registeredAt := now }]
    ({ colleges := colleges1, students := replaceStudents st.students req now },
     .ok req.students.length req.collegeName)

/-- The `GET /api/stats` response; the breakdown objects are total
functions defaulting to 0 (`(obj[k] || 0)`). -/
structure Stats where
  totalColleges : Nat
  totalStudents : Nat
  lastUpdated : Nat
  sportBreakdown : String → Nat
  courseBreakdown : String → Nat
  yearBreakdown : String → Nat
  collegeBreakdown : String → Nat

/-- `obj[k] = (obj[k] || 0) + 1`. -/
def bump (m : String → Nat) (k : String) : String → Nat :=
  fun x => if x = k then m k + 1 else m x

/-- One iteration of the `students.forEach` loop in `GET /api/stats`. -/
def statsStep (acc : Stats) (student : Student) : Stats :=
  let acc1 := if student.base.sport ≠ "" then
      { acc with sportBreakdown := bump acc.sportBreakdown student.base.sport } else acc
  let acc2 := if student.base.course ≠ "" then
      { acc1 with courseBreakdown := bump acc1.courseBreakdown student.base.course } else acc1
  let acc3 := if student.base.year ≠ "" then
      { acc2 with yearBreakdown := bump acc2.yearBreakdown student.base.year } else acc2
  if student.collegeName ≠ "" then
    { acc3 with collegeBreakdown := bump acc3.collegeBreakdown student.collegeName } else acc3

/-- `GET /api/stats` (index.js:128–156). -/
def getStats (st : ServerState) (now : Nat) : Stats :=
  st.students.foldl statsStep
    { totalColleges := st.colleges.length, totalStudents := st.students.length,
      lastUpdated := now, sportBreakdown := fun _ => 0, courseBreakdown := fun _ => 0,
      yearBreakdown := fun _ => 0, collegeBreakdown := fun _ => 0 }

/-- `DELETE /api/clear` (index.js:805–830): empty both arrays, report the
old sizes. -/
def clearData (st : ServerState) : ServerState × Nat × Nat :=
  ({ colleges := [], students := [] }, st.colleges.length, st.students.length)

example :
    (postStudents ⟨[⟨"A", "old@a", 0, 0, 0⟩], []⟩ ⟨"A", [], "new@a"⟩ 5).1.colleges =
      [⟨"A", "old@a", 0, 5, 0⟩] := by decide

example :
    (postStudents2 ⟨[⟨"A", "old@a", 0, 0, 0⟩], []⟩ ⟨"A", [], "new@a"⟩ 5).1.colleges =
      [⟨"A", "new@a", 0, 5, 0⟩] := by decide

/-! ### Lemmas about the students replacement -/

lemma replaceStudents_filter_ne (students : List Student) (req : StudentsRequest)
    (now : Nat) :
    (replaceStudents students req now).filter
        (fun s => !(s.collegeName == req.collegeName)) =
      students.filter (fun s => !(s.collegeName == req.collegeName)) := by
  unfold replaceStudents
  rw [List.filter_append]
  have h1 : (req.students.map (fun s =>
      ({ base := s, collegeName := req.collegeName, collegeEmail := req.collegeEmail,
         uploadedAt := now } : Student))).filter
        (fun s => !(s.collegeName == req.collegeName)) = [] := by
    induction req.students with
    | nil => rfl
    | cons a l ih => simp [ih]
  rw [h1, List.filter_filter]
  simp

lemma replaceStudents_filter_eq (students : List Student) (req : StudentsRequest)
    (now : Nat) :
    (replaceStudents students req now).filter
        (fun s => s.collegeName == req.collegeName) =
      req.students.map (fun s =>
        { base := s, collegeName := req.collegeName, collegeEmail := req.collegeEmail,
          uploadedAt := now }) := by
  unfold replaceStudents
  rw [List.filter_append]
  have h1 : (students.filter (fun s => !(s.collegeName == req.collegeName))).filter
      (fun s => s.collegeName == req.collegeName) = [] := by
    rw [List.filter_filter]
    simp
  have h2 : (req.students.map (fun s =>
      ({ base := s, collegeName := req.collegeName, collegeEmail := req.collegeEmail,
         uploadedAt := now } : Student))).filter
        (fun s => s.collegeName == req.collegeName) =
      req.students.map (fun s =>
        ({ base := s, collegeName := req.collegeName, collegeEmail := req.collegeEmail,
           uploadedAt := now } : Student)) := by
    induction req.students with
    | nil => rfl
    | cons a l ih => simp [ih]
  rw [h1, h2, List.nil_append]

/-- **C7.** For every valid request, `POST /api/students` is a per-college
replacement: students of other colleges are exactly preserved, the stored
students of the request's college afterwards are exactly the uploaded array
extended with `collegeName`, `collegeEmail` and the upload timestamp, and
the success response reports the uploaded array's length. -/
theorem postStudents_per_college_replacement (st : ServerState) (req : StudentsRequest)
    (now : Nat) (hvalid : req.collegeName ≠ "") :
    (postStudents st req now).1.students.filter
        (fun s => !(s.collegeName == req.collegeName)) =
      st.students.filter (fun s => !(s.collegeName == req.collegeName)) ∧
    (postStudents st req now).1.students.filter
        (fun s => s.collegeName == req.collegeName) =
      req.students.map (fun s =>
        { base := s, collegeName := req.collegeName, collegeEmail := req.collegeEmail,
          uploadedAt := now }) ∧
    (postStudents st req now).2 = PostResult.ok req.students.length req.collegeName := by
  unfold postStudents
  rw [if_neg hvalid]
  exact ⟨replaceStudents_filter_ne st.students req now,
         replaceStudents_filter_eq st.students req now, rfl⟩

/-- Witness for C7: uploading two students for college "A" over a state
that also holds a "B" student. -/
theorem postStudents_per_college_replacement_witness :
    ("A" : String) ≠ "" ∧
    ((postStudents
        ⟨[], [⟨⟨"n0", "e0", "", "", "c0", "1", "s0", ""⟩, "B", "b@b", 0⟩]⟩
        ⟨"A", [⟨"n1", "e1", "", "", "c1", "2", "s1", ""⟩,
               ⟨"n2", "e2", "", "", "c2", "3", "s2", ""⟩], "a@a"⟩ 9).1.students.filter
        (fun s => !(s.collegeName == "A")) =
      [⟨⟨"n0", "e0", "", "", "c0", "1", "s0", ""⟩, "B", "b@b", 0⟩]) ∧
    (postStudents
        ⟨[], [⟨⟨"n0", "e0", "", "", "c0", "1", "s0", ""⟩, "B", "b@b", 0⟩]⟩
        ⟨"A", [⟨"n1", "e1", "", "", "c1", "2", "s1", ""⟩,
               ⟨"n2", "e2", "", "", "c2", "3", "s2", ""⟩], "a@a"⟩ 9).2 = PostResult.ok 2 "A"
      := by
  have h := postStudents_per_college_replacement
    ⟨[], [⟨⟨"n0", "e0", "", "", "c0", "1", "s0", ""⟩, "B", "b@b", 0⟩]⟩
    ⟨"A", [⟨"n1", "e1", "", "", "c1", "2", "s1", ""⟩,
           ⟨"n2", "e2", "", "", "c2", "3", "s2", ""⟩], "a@a"⟩ 9 (by decide)
  refine ⟨by decide, ?_, ?_⟩
  · rw [h.1]
    decide
  · exact h.2.2

/-- **C8 counterexample.** The first and second copies of
`POST /api/students` are not behaviorally equivalent: updating an existing
college, the first copy keeps the stored email while the second overwrites
it with the request's `collegeInfo` email. -/
theorem postStudents_copies_differ :
    (postStudents ⟨[⟨"A", "old@a", 0, 0, 0⟩], []⟩ ⟨"A", [], "new@a"⟩ 5).1 ≠
    (postStudents2 ⟨[⟨"A", "old@a", 0, 0, 0⟩], []⟩ ⟨"A", [], "new@a"⟩ 5).1 := by decide

/-- Erase the one field on which the copies can disagree. -/
def dropEmail (c : College) : College := { c with email := "" }

lemma map_updateFirst_congr {α β : Type} (F : α → β) (p : α → Bool) (f g : α → α)
    (h : ∀ a, p a = true → F (f a) = F (g a)) :
    ∀ l : List α, (updateFirst p f l).map F = (updateFirst p g l).map F
  | [] => rfl
  | x :: xs => by
    unfold updateFirst
    by_cases hp : p x
    · simp [hp, h x hp]
    · simp [hp, map_updateFirst_congr F p f g h xs]

/-- **C8 (amended).** From the same state, request and time: the copies at
index.js:80 and part_001:93 are fully equivalent; every copy produces the
same student list; and the college lists agree on every field except
`email` (the second copy overwrites an existing college's email with the
request's, the others keep the stored one). -/
theorem postStudents_copies_agree (st : ServerState) (req : StudentsRequest) (now : Nat) :
    postStudents st req now = postStudentsResend st req now ∧
    (postStudents st req now).1.students = (postStudents2 st req now).1.students ∧
    (postStudents st req now).1.colleges.map dropEmail =
      (postStudents2 st req now).1.colleges.map dropEmail := by
  refine ⟨rfl, ?_, ?_⟩
  · unfold postStudents postStudents2
    by_cases hv : req.collegeName = "" <;> simp [hv]
  · unfold postStudents postStudents2
    by_cases hv : req.collegeName = ""
    · simp [hv]
    · simp only [hv, if_false]
      by_cases hf : (st.colleges.find? (fun c => c.name == req.collegeName)).isSome
      · simp only [hf, if_true]
        apply map_updateFirst_congr
        intro a ha
        have hname : a.name = req.collegeName := by simpa using ha
        simp [dropEmail, hname]
      · simp [hf]

/-! ### Lemmas about the stats fold -/

lemma statsStep_totalColleges (acc : Stats) (s : Student) :
    (statsStep acc s).totalColleges = acc.totalColleges := by
  unfold statsStep
  split_ifs <;> rfl

lemma statsStep_totalStudents (acc : Stats) (s : Student) :
    (statsStep acc s).totalStudents = acc.totalStudents := by
  unfold statsStep
  split_ifs <;> rfl

lemma statsStep_sportBreakdown (acc : Stats) (s : Student) :
    (statsStep acc s).sportBreakdown =
      if s.base.sport ≠ "" then bump acc.sportBreakdown s.base.sport
      else acc.sportBreakdown := by
  unfold statsStep
  split_ifs <;> rfl

lemma statsStep_courseBreakdown (acc : Stats) (s : Student) :
    (statsStep acc s).courseBreakdown =
      if s.base.course ≠ "" then bump acc.courseBreakdown s.base.course
      else acc.courseBreakdown := by
  unfold statsStep
  split_ifs <;> rfl

lemma statsStep_yearBreakdown (acc : Stats) (s : Student) :
    (statsStep acc s).yearBreakdown =
      if s.base.year ≠ "" then bump acc.yearBreakdown s.base.year
      else acc.yearBreakdown := by
  unfold statsStep
  split_ifs <;> rfl

lemma statsStep_collegeBreakdown (acc : Stats) (s : Student) :
    (statsStep acc s).collegeBreakdown =
      if s.collegeName ≠ "" then bump acc.collegeBreakdown s.collegeName
      else acc.collegeBreakdown := by
  unfold statsStep
  split_ifs <;> rfl

lemma foldl_statsStep_totalColleges (l : List Student) (acc : Stats) :
    (l.foldl statsStep acc).totalColleges = acc.totalColleges := by
  induction l generalizing acc with
  | nil => rfl
  | cons s l ih => rw [List.foldl_cons, ih, statsStep_totalColleges]

lemma foldl_statsStep_totalStudents (l : List Student) (acc : Stats) :
    (l.foldl statsStep acc).totalStudents = acc.totalStudents := by
  induction l generalizing acc with
  | nil => rfl
  | cons s l ih => rw [List.foldl_cons, ih, statsStep_totalStudents]

lemma breakdown_update_count (m : String → Nat) (v k : String)
    (c : Nat) :
    (if v ≠ "" then bump m v else m) k + c =
      m k + (c + if v == k && !(k == "") then 1 else 0) := by
  by_cases hv : v = ""
  · have hfalse : (v == k && !(k == "")) = false := by
      by_cases hk : k = ""
      · simp [hk]
      · have hvk : (v == k) = false := by
          rw [beq_eq_false_iff_ne, hv]
          exact fun h => hk h.symm
        simp [hvk]
    rw [if_neg (by simp [hv]), hfalse]
    simp
  · rw [if_pos hv]
    show (if k = v then m v + 1 else m k) + c = _
    by_cases hk : k = v
    · have ht : (v == k && !(k == "")) = true := by
        subst hk
        simp [hv]
      rw [if_pos hk, ht, hk]
      simp
      omega
    · have hvk : (v == k) = false := by
        rw [beq_eq_false_iff_ne]
        exact fun h => hk h.symm
      rw [if_neg hk]
      simp [hvk]

lemma foldl_statsStep_sport (l : List Student) (acc : Stats) (k : String) :
    (l.foldl statsStep acc).sportBreakdown k =
      acc.sportBreakdown k + l.countP (fun s => s.base.sport == k && !(k == "")) := by
  induction l generalizing acc with
  | nil => simp
  | cons s l ih =>
    rw [List.foldl_cons, ih, List.countP_cons, statsStep_sportBreakdown]
    exact breakdown_update_count acc.sportBreakdown s.base.sport k _

lemma foldl_statsStep_course (l : List Student) (acc : Stats) (k : String) :
    (l.foldl statsStep acc).courseBreakdown k =
      acc.courseBreakdown k + l.countP (fun s => s.base.course == k && !(k == "")) := by
  induction l generalizing acc with
  | nil => simp
  | cons s l ih =>
    rw [List.foldl_cons, ih, List.countP_cons, statsStep_courseBreakdown]
    exact breakdown_update_count acc.courseBreakdown s.base.course k _

lemma foldl_statsStep_year (l : List Student) (acc : Stats) (k : String) :
    (l.foldl statsStep acc).yearBreakdown k =
      acc.yearBreakdown k + l.countP (fun s => s.base.year == k && !(k == "")) := by
  induction l generalizing acc with
  | nil => simp
  | cons s l ih =>
    rw [List.foldl_cons, ih, List.countP_cons, statsStep_yearBreakdown]
    exact breakdown_update_count acc.yearBreakdown s.base.year k _

lemma foldl_statsStep_college (l : List Student) (acc : Stats) (k : String) :
    (l.foldl statsStep acc).collegeBreakdown k =
      acc.collegeBreakdown k + l.countP (fun s => s.collegeName == k && !(k == "")) := by
  induction l generalizing acc with
  | nil => simp
  | cons s l ih =>
    rw [List.foldl_cons, ih, List.countP_cons, statsStep_collegeBreakdown]
    exact breakdown_update_count acc.collegeBreakdown s.collegeName k _

/-- **C9.** `GET /api/stats` returns the stored array sizes as totals, and
each breakdown key's count equals the number of stored students whose
corresponding field equals that key and is truthy (the empty key counts
nothing). -/
theorem getStats_correct (st : ServerState) (now : Nat) (k : String) :
    (getStats st now).totalColleges = st.colleges.length ∧
    (getStats st now).totalStudents = st.students.length ∧
    (getStats st now).sportBreakdown k =
      st.students.countP (fun s => s.base.sport == k && !(k == "")) ∧
    (getStats st now).courseBreakdown k =
      st.students.countP (fun s => s.base.course == k && !(k == "")) ∧
    (getStats st now).yearBreakdown k =
      st.students.countP (fun s => s.base.year == k && !(k == "")) ∧
    (getStats st now).collegeBreakdown k =
      st.students.countP (fun s => s.collegeName == k && !(k == "")) := by
  unfold getStats
  refine ⟨foldl_statsStep_totalColleges _ _, foldl_statsStep_totalStudents _ _, ?_, ?_, ?_, ?_⟩
  · rw [foldl_statsStep_sport]
    simp
  · rw [foldl_statsStep_course]
    simp
  · rw [foldl_statsStep_year]
    simp
  · rw [foldl_statsStep_college]
    simp

/-! ### Traces of state-changing requests (for the colleges invariant) -/

/-- A state-changing request: either copy of `POST /api/students`, or
`DELETE /api/clear`. -/
inductive ServerOp where
  | post (req : StudentsRequest) (now : Nat)
  | post2 (req : StudentsRequest) (now : Nat)
  | clear

/-- Apply one request to the state. -/
def applyOp (st : ServerState) : ServerOp → ServerState
  | .post req now => (postStudents st req now).1
  | .post2 req now => (postStudents2 st req now).1
  | .clear => (clearData st).1

/-- Run a trace from the initial empty state. -/
def runOps (ops : List ServerOp) : ServerState :=
  ops.foldl applyOp { colleges := [], students := [] }

/-- The students array of the most recent upload for a college name in a
trace (`none` after a clear or when the college was never posted). -/
def lastUpload (ops : List ServerOp) (name : String) : Option (List RawStudent) :=
  ops.foldl (fun acc op =>
    match op with
    | .post req _ => if req.collegeName = name then some req.students else acc
    | .post2 req _ => if req.collegeName = name then some req.students else acc
    | .clear => none) none

lemma runOps_append_one (ops : List ServerOp) (op : ServerOp) :
    runOps (ops ++ [op]) = applyOp (runOps ops) op := by
  simp [runOps, List.foldl_append]

lemma lastUpload_append_post (ops : List ServerOp) (req : StudentsRequest) (now : Nat)
    (name : String) :
    lastUpload (ops ++ [ServerOp.post req now]) name =
      if req.collegeName = name then some req.students else lastUpload ops name := by
  simp [lastUpload, List.foldl_append]

lemma lastUpload_append_post2 (ops : List ServerOp) (req : StudentsRequest) (now : Nat)
    (name : String) :
    lastUpload (ops ++ [ServerOp.post2 req now]) name =
      if req.collegeName = name then some req.students else lastUpload ops name := by
  simp [lastUpload, List.foldl_append]

/-! ### Reduction lemmas for the two postStudents copies -/

lemma postStudents_invalid (st : ServerState) (req : StudentsRequest) (now : Nat)
    (hv : req.collegeName = "") : (postStudents st req now).1 = st := by
  unfold postStudents
  rw [if_pos hv]

lemma postStudents2_invalid (st : ServerState) (req : StudentsRequest) (now : Nat)
    (hv : req.collegeName = "") : (postStudents2 st req now).1 = st := by
  unfold postStudents2
  rw [if_pos hv]

lemma postStudents_colleges_found (st : ServerState) (req : StudentsRequest) (now : Nat)
    (hv : ¬ req.collegeName = "")
    (hf : (st.colleges.find? (fun c => c.name == req.collegeName)).isSome) :
    (postStudents st req now).1.colleges =
      updateFirst (fun c => c.name == req.collegeName)
        (fun c => { c with studentCount := req.students.length, lastUpdated := now })
        st.colleges := by
  unfold postStudents
  rw [if_neg hv, if_pos hf]

lemma postStudents_colleges_notfound (st : ServerState) (req : StudentsRequest) (now : Nat)
    (hv : ¬ req.collegeName = "")
    (hf : ¬ (st.colleges.find? (fun c => c.name == req.collegeName)).isSome) :
    (postStudents st req now).1.colleges =
      st.colleges ++ [{ name := req.collegeName, email := req.collegeEmail,
                        studentCount := req.students.length,
                        lastUpdated := now, registeredAt := now }] := by
  unfold postStudents
  rw [if_neg hv, if_neg hf]

lemma postStudents2_colleges_found (st : ServerState) (req : StudentsRequest) (now : Nat)
    (hv : ¬ req.collegeName = "")
    (hf : (st.colleges.find? (fun c => c.name == req.collegeName)).isSome) :
    (postStudents2 st req now).1.colleges =
      updateFirst (fun c => c.name == req.collegeName)
        (fun c => { name := req.collegeName, email := req.collegeEmail,
                    studentCount := req.students.length, lastUpdated := now,
                    registeredAt := c.registeredAt })
        st.colleges := by
  unfold postStudents2
  rw [if_neg hv, if_pos hf]

lemma postStudents2_colleges_notfound (st : ServerState) (req : StudentsRequest) (now : Nat)
    (hv : ¬ req.collegeName = "")
    (hf : ¬ (st.colleges.find? (fun c => c.name == req.collegeName)).isSome) :
    (postStudents2 st req now).1.colleges =
      st.colleges ++ [{ name := req.collegeName, email := req.collegeEmail,
                        studentCount := req.students.length,
                        lastUpdated := now, registeredAt := now }] := by
  unfold postStudents2
  rw [if_neg hv, if_neg hf]

/-! ### updateFirst lemmas -/

lemma map_name_updateFirst (p : College → Bool) (f : College → College)
    (hf : ∀ c, p c = true → (f c).name = c.name) :
    ∀ l : List College,
      (updateFirst p f l).map College.name = l.map College.name
  | [] => rfl
  | x :: xs => by
    unfold updateFirst
    by_cases hp : p x = true
    · rw [if_pos hp]
      simp [hf x hp]
    · rw [if_neg hp]
      simp [map_name_updateFirst p f hf xs]

lemma updateFirst_eq_map_of_nodup (n : String) (f : College → College) :
    ∀ l : List College, (l.map College.name).Nodup →
      updateFirst (fun c => c.name == n) f l =
        l.map (fun c => if c.name == n then f c else c)
  | [], _ => rfl
  | x :: xs, h => by
    rw [List.map_cons, List.nodup_cons] at h
    unfold updateFirst
    by_cases hp : (x.name == n) = true
    · rw [if_pos hp, List.map_cons, if_pos hp]
      have hx : x.name = n := by simpa using hp
      have hid : xs.map (fun c => if c.name == n then f c else c) = xs := by
        conv_rhs => rw [← List.map_id xs]
        apply List.map_congr_left
        intro a ha
        have hane : ¬ a.name = n := by
          intro hcontra
          exact h.1 (hx ▸ hcontra ▸ List.mem_map_of_mem College.name ha)
        rw [if_neg (by simpa using hane)]
        rfl
      rw [hid]
    · rw [if_neg hp, List.map_cons, if_neg hp]
      rw [updateFirst_eq_map_of_nodup n f xs h.2]

lemma update_found_facts (l : List College) (n : String) (len : Nat)
    (f : College → College)
    (hf_name : ∀ c, (c.name == n) = true → (f c).name = c.name)
    (hf_count : ∀ c, (c.name == n) = true → (f c).studentCount = len)
    (hnodup : (l.map College.name).Nodup) :
    ((updateFirst (fun c => c.name == n) f l).map College.name).Nodup ∧
    ∀ c ∈ updateFirst (fun c => c.name == n) f l,
      (c.name = n → c.studentCount = len) ∧ (¬ c.name = n → c ∈ l) := by
  constructor
  · rw [map_name_updateFirst _ _ hf_name]
    exact hnodup
  · rw [updateFirst_eq_map_of_nodup n f l hnodup]
    intro c hc
    rcases List.mem_map.mp hc with ⟨c0, hc0, rfl⟩
    by_cases hp : (c0.name == n) = true
    · rw [if_pos hp]
      have h1 : (f c0).name = c0.name := hf_name c0 hp
      have h2 : c0.name = n := by simpa using hp
      exact ⟨fun _ => hf_count c0 hp, fun hne => absurd (h1.trans h2) hne⟩
    · rw [if_neg hp]
      exact ⟨fun he => absurd he (by simpa using hp), fun _ => hc0⟩

lemma update_notfound_facts (l : List College) (n : String) (len : Nat) (newC : College)
    (hnew_name : newC.name = n) (hnew_count : newC.studentCount = len)
    (hnodup : (l.map College.name).Nodup)
    (hf : ¬ (l.find? (fun c => c.name == n)).isSome = true) :
    (((l ++ [newC]).map College.name).Nodup) ∧
    ∀ c ∈ l ++ [newC],
      (c.name = n → c.studentCount = len) ∧ (¬ c.name = n → c ∈ l) := by
  have hnone : ∀ c ∈ l, ¬ (c.name == n) = true := by
    have h0 : l.find? (fun c => c.name == n) = none :=
      Option.not_isSome_iff_eq_none.mp hf
    exact List.find?_eq_none.mp h0
  constructor
  · rw [List.map_append, List.nodup_append]
    refine ⟨hnodup, by simp, ?_⟩
    intro a ha hb
    simp only [List.map_cons, List.map_nil, List.mem_singleton] at hb
    rcases List.mem_map.mp ha with ⟨c, hc, hca⟩
    exact hnone c hc (by simp [hca, hb, hnew_name])
  · intro c hc
    rcases List.mem_append.mp hc with h | h
    · exact ⟨fun he => absurd (by simp [he] : (c.name == n) = true) (hnone c h),
             fun _ => h⟩
    · simp only [List.mem_singleton] at h
      subst h
      exact ⟨fun _ => hnew_count, fun hne => absurd hnew_name hne⟩

/-- **C10.** College names stay pairwise distinct: every reachable state of
a trace of `POST /api/students` (either copy) and `DELETE /api/clear`
requests has pairwise-distinct college names, and every college record's
`studentCount` is the length of the most recent upload for that name;
`DELETE /api/clear` empties the state, and a valid POST keeps the name
list unchanged when the name is present and appends exactly it when
absent. -/
theorem collegeNames_invariant :
    (∀ ops : List ServerOp,
      ((runOps ops).colleges.map College.name).Nodup ∧
      ∀ c ∈ (runOps ops).colleges, ¬ c.name = "" ∧
        ∃ l0, lastUpload ops c.name = some l0 ∧ c.studentCount = l0.length) ∧
    (∀ st : ServerState, (clearData st).1 = { colleges := [], students := [] }) ∧
    (∀ (st : ServerState) (req : StudentsRequest) (now : Nat), ¬ req.collegeName = "" →
      ((st.colleges.find? (fun c => c.name == req.collegeName)).isSome →
        (postStudents st req now).1.colleges.map College.name =
          st.colleges.map College.name ∧
        (postStudents2 st req now).1.colleges.map College.name =
          st.colleges.map College.name) ∧
      (¬ (st.colleges.find? (fun c => c.name == req.collegeName)).isSome →
        (postStudents st req now).1.colleges.map College.name =
          st.colleges.map College.name ++ [req.collegeName] ∧
        (postStudents2 st req now).1.colleges.map College.name =
          st.colleges.map College.name ++ [req.collegeName])) := by
  refine ⟨?_, fun st => rfl, ?_⟩
  · intro ops
    induction ops using List.reverseRecOn with
    | nil => exact ⟨by simp [runOps], by simp [runOps]⟩
    | append_singleton ops op ih =>
      rw [runOps_append_one]
      rcases ih with ⟨hnd, hrec⟩
      cases op with
      | clear =>
        exact ⟨by simp [applyOp, clearData], by simp [applyOp, clearData]⟩
      | post req now =>
        simp only [applyOp]
        by_cases hv : req.collegeName = ""
        · rw [postStudents_invalid _ _ _ hv]
          refine ⟨hnd, fun c hc => ?_⟩
          rcases hrec c hc with ⟨hne, l0, hl0, hcnt⟩
          have hcond : ¬ (req.collegeName = c.name) := by
            rw [hv]
            exact fun hcon => hne hcon.symm
          exact ⟨hne, l0, by rw [lastUpload_append_post, if_neg hcond, hl0], hcnt⟩
        · by_cases hfind :
            ((runOps ops).colleges.find? (fun c => c.name == req.collegeName)).isSome = true
          · rw [postStudents_colleges_found _ _ _ hv hfind]
            obtain ⟨hnd', hfacts⟩ := update_found_facts (runOps ops).colleges
              req.collegeName req.students.length
              (fun c => { c with studentCount := req.students.length, lastUpdated := now })
              (fun c _ => rfl) (fun c _ => rfl) hnd
            refine ⟨hnd', fun c hc => ?_⟩
            obtain ⟨hcn, hold⟩ := hfacts c hc
            by_cases hceq : c.name = req.collegeName
            · exact ⟨by rw [hceq]; exact hv, req.students,
                by rw [lastUpload_append_post, if_pos hceq.symm], hcn hceq⟩
            · obtain ⟨hne, l0, hl0, hcnt⟩ := hrec c (hold hceq)
              exact ⟨hne, l0,
                by rw [lastUpload_append_post, if_neg (fun hcon => hceq hcon.symm), hl0],
                hcnt⟩
          · rw [postStudents_colleges_notfound _ _ _ hv hfind]
            obtain ⟨hnd', hfacts⟩ := update_notfound_facts (runOps ops).colleges
              req.collegeName req.students.length
              { name := req.collegeName, email := req.collegeEmail,
                studentCount := req.students.length, lastUpdated := now,
                registeredAt := now }
              rfl rfl hnd hfind
            refine ⟨hnd', fun c hc => ?_⟩
            obtain ⟨hcn, hold⟩ := hfacts c hc
            by_cases hceq : c.name = req.collegeName
            · exact ⟨by rw [hceq]; exact hv, req.students,
                by rw [lastUpload_append_post, if_pos hceq.symm], hcn hceq⟩
            · obtain ⟨hne, l0, hl0, hcnt⟩ := hrec c (hold hceq)
              exact ⟨hne, l0,
                by rw [lastUpload_append_post, if_neg (fun hcon => hceq hcon.symm), hl0],
                hcnt⟩
      | post2 req now =>
        simp only [applyOp]
        by_cases hv : req.collegeName = ""
        · rw [postStudents2_invalid _ _ _ hv]
          refine ⟨hnd, fun c hc => ?_⟩
          rcases hrec c hc with ⟨hne, l0, hl0, hcnt⟩
          have hcond : ¬ (req.collegeName = c.name) := by
            rw [hv]
            exact fun hcon => hne hcon.symm
          exact ⟨hne, l0, by rw [lastUpload_append_post2, if_neg hcond, hl0], hcnt⟩
        · by_cases hfind :
            ((runOps ops).colleges.find? (fun c => c.name == req.collegeName)).isSome = true
          · rw [postStudents2_colleges_found _ _ _ hv hfind]
            obtain ⟨hnd', hfacts⟩ := update_found_facts (runOps ops).colleges
              req.collegeName req.students.length
              (fun c => { name := req.collegeName, email := req.collegeEmail,
                          studentCount := req.students.length, lastUpdated := now,
                          registeredAt := c.registeredAt })
              (fun c hp => (show c.name = req.collegeName by simpa using hp).symm)
              (fun c _ => rfl) hnd
            refine ⟨hnd', fun c hc => ?_⟩
            obtain ⟨hcn, hold⟩ := hfacts c hc
            by_cases hceq : c.name = req.collegeName
            · exact ⟨by rw [hceq]; exact hv, req.students,
                by rw [lastUpload_append_post2, if_pos hceq.symm], hcn hceq⟩
            · obtain ⟨hne, l0, hl0, hcnt⟩ := hrec c (hold hceq)
              exact ⟨hne, l0,
                by rw [lastUpload_append_post2, if_neg (fun hcon => hceq hcon.symm), hl0],
                hcnt⟩
          · rw [postStudents2_colleges_notfound _ _ _ hv hfind]
            obtain ⟨hnd', hfacts⟩ := update_notfound_facts (runOps ops).colleges
              req.collegeName req.students.length
              { name := req.collegeName, email := req.collegeEmail,
                studentCount := req.students.length, lastUpdated := now,
                registeredAt := now }
              rfl rfl hnd hfind
            refine ⟨hnd', fun c hc => ?_⟩
            obtain ⟨hcn, hold⟩ := hfacts c hc
            by_cases hceq : c.name = req.collegeName
            · exact ⟨by rw [hceq]; exact hv, req.students,
                by rw [lastUpload_append_post2, if_pos hceq.symm], hcn hceq⟩
            · obtain ⟨hne, l0, hl0, hcnt⟩ := hrec c (hold hceq)
              exact ⟨hne, l0,
                by rw [lastUpload_append_post2, if_neg (fun hcon => hceq hcon.symm), hl0],
                hcnt⟩
  · intro st req now hv
    constructor
    · intro hf
      refine ⟨?_, ?_⟩
      · rw [postStudents_colleges_found _ _ _ hv hf]
        exact map_name_updateFirst (fun c => c.name == req.collegeName)
          (fun c => { c with studentCount := req.students.length, lastUpdated := now })
          (fun c _ => rfl) st.colleges
      · rw [postStudents2_colleges_found _ _ _ hv hf]
        exact map_name_updateFirst (fun c => c.name == req.collegeName)
          (fun c => { name := req.collegeName, email := req.collegeEmail,
                      studentCount := req.students.length, lastUpdated := now,
                      registeredAt := c.registeredAt })
          (fun c hp => (show c.name = req.collegeName by simpa using hp).symm) st.colleges
    · intro hf
      refine ⟨?_, ?_⟩
      · rw [postStudents_colleges_notfound _ _ _ hv hf]
        simp
      · rw [postStudents2_colleges_notfound _ _ _ hv hf]
        simp

/-- Witness for C10 at a concrete trace, clear call, and valid POST on an
existing college. -/
theorem collegeNames_invariant_witness :
    ((runOps [ServerOp.post ⟨"A", [⟨"n1", "e1", "", "", "c1", "2", "s1", ""⟩], "a@a"⟩ 1,
              ServerOp.post2 ⟨"B", [], ""⟩ 2,
              ServerOp.post ⟨"A", [], ""⟩ 3]).colleges.map College.name).Nodup ∧
    (clearData ⟨[⟨"X", "", 3, 0, 0⟩], []⟩).1 = { colleges := [], students := [] } ∧
    (postStudents ⟨[⟨"A", "", 0, 0, 0⟩], []⟩ ⟨"A", [], ""⟩ 9).1.colleges.map College.name =
      (⟨[⟨"A", "", 0, 0, 0⟩], []⟩ : ServerState).colleges.map College.name := by
  have h := collegeNames_invariant
  exact ⟨(h.1 _).1, h.2.1 _,
    ((h.2.2 ⟨[⟨"A", "", 0, 0, 0⟩], []⟩ ⟨"A", [], ""⟩ 9 (by decide)).1 (by decide)).1⟩
